import Mathlib

/-
Verification of the loan-service payment-status engine and the React
frontend components against their specification.  The engine itself
(the Python service behind the GraphQL schema) is not present in the
repository snapshot, so its components are modelled from the
specification text; the React components (AddPayment, LoanCalculator)
are embedded from their TypeScript source.
-/

namespace LoanService

/-- A calendar date (year, month, day), no time component. -/
structure Date where
  year : Int
  month : Int
  day : Int
deriving DecidableEq, Repr

/-- Day number of a calendar date (days since the civil epoch
1970-01-01), via the standard days-from-civil algorithm, so that the
difference of two day numbers is the whole-day calendar difference. -/
def Date.toDays (dt : Date) : Int :=
  let y : Int := if dt.month ≤ 2 then dt.year - 1 else dt.year
  let era : Int := (if 0 ≤ y then y else y - 399) / 400
  let yoe : Int := y - era * 400
  let mp : Int := (dt.month + 9) % 12
  let doy : Int := (153 * mp + 2) / 5 + dt.day - 1
  let doe : Int := yoe * 365 + yoe / 4 - yoe / 100 + doy
  era * 146097 + doe - 719468

/-- Timeliness bucket of a payment relative to the due date. -/
inductive TimelinessBucket
  | OnTime
  | Late
  | Defaulted
deriving DecidableEq, Repr

namespace DateOffsetClassifier

/-- Modelled from the spec: the Python engine source is not in the
repository snapshot.  Spec 4.1: given a due date and an optional
reference date, return no bucket when the reference date is absent;
otherwise compute days = referenceDate - dueDate in whole calendar
days and bucket with inclusive boundaries: days at most 5 is OnTime,
6 to 30 is Late, more than 30 is Defaulted. -/
def classify (dueDate : Date) (referenceDate : Option Date) :
    Option TimelinessBucket :=
  match referenceDate with
  | none => none
  | some ref =>
    let days : Int := ref.toDays - dueDate.toDays
    if days ≤ 5 then some TimelinessBucket.OnTime
    else if days ≤ 30 then some TimelinessBucket.Late
    else some TimelinessBucket.Defaulted

end DateOffsetClassifier

/-- Claim C1: for every due date and every present reference date, classify
returns OnTime when the whole-day difference is at most 5 (negative
included), Late when it is between 6 and 30 inclusive, and Defaulted
when it exceeds 30. -/
theorem C1_classify_buckets (due ref : Date) :
    (ref.toDays - due.toDays ≤ 5 →
      DateOffsetClassifier.classify due (some ref) =
        some TimelinessBucket.OnTime) ∧
    (6 ≤ ref.toDays - due.toDays ∧ ref.toDays - due.toDays ≤ 30 →
      DateOffsetClassifier.classify due (some ref) =
        some TimelinessBucket.Late) ∧
    (30 < ref.toDays - due.toDays →
      DateOffsetClassifier.classify due (some ref) =
        some TimelinessBucket.Defaulted) := by
  refine ⟨fun h => ?_, fun h => ?_, fun h => ?_⟩ <;>
    simp only [DateOffsetClassifier.classify] <;>
    split <;> try rfl
  all_goals first
    | rfl
    | (split <;> first | rfl | omega)
    | omega

/-- Claim C1 witness: concrete boundary dates around the due date
2025-03-01, giving day offsets 5, 6, 30, 31 and a negative offset. -/
theorem C1_classify_buckets_witness :
    DateOffsetClassifier.classify ⟨2025, 3, 1⟩ (some ⟨2025, 3, 6⟩) =
      some TimelinessBucket.OnTime ∧
    DateOffsetClassifier.classify ⟨2025, 3, 1⟩ (some ⟨2025, 3, 7⟩) =
      some TimelinessBucket.Late ∧
    DateOffsetClassifier.classify ⟨2025, 3, 1⟩ (some ⟨2025, 3, 31⟩) =
      some TimelinessBucket.Late ∧
    DateOffsetClassifier.classify ⟨2025, 3, 1⟩ (some ⟨2025, 4, 1⟩) =
      some TimelinessBucket.Defaulted ∧
    DateOffsetClassifier.classify ⟨2025, 3, 1⟩ (some ⟨2025, 2, 20⟩) =
      some TimelinessBucket.OnTime :=
  ⟨(C1_classify_buckets ⟨2025, 3, 1⟩ ⟨2025, 3, 6⟩).1 (by decide),
   (C1_classify_buckets ⟨2025, 3, 1⟩ ⟨2025, 3, 7⟩).2.1 (by decide),
   (C1_classify_buckets ⟨2025, 3, 1⟩ ⟨2025, 3, 31⟩).2.1 (by decide),
   (C1_classify_buckets ⟨2025, 3, 1⟩ ⟨2025, 4, 1⟩).2.2 (by decide),
   (C1_classify_buckets ⟨2025, 3, 1⟩ ⟨2025, 2, 20⟩).1 (by decide)⟩

/-- A recorded payment: identifier, owning loan identifier, optional
payment date (absent means not yet paid), and a decimal amount. -/
structure Payment where
  id : Int
  loan_id : Int
  payment_date : Option Date
  amount : ℚ
deriving DecidableEq

/-- A loan record: identifier, name, principal, interest rate (unused
by the core beyond display), and a due date. -/
structure Loan where
  id : Int
  name : String
  principal : ℚ
  interest_rate : ℚ
  due_date : Date
deriving DecidableEq

namespace PaymentAggregator

/-- Modelled from the spec: the Python engine source is not in the
repository snapshot.  Spec 4.2: sum the amounts over the payment
sequence; the empty sequence yields zero. -/
def totalPaid (payments : List Payment) : ℚ :=
  (payments.map Payment.amount).sum

end PaymentAggregator

/-- The value-returning error conditions of the engine (spec section 7). -/
inductive EngineError
  | InvalidAmountError
  | InvalidDateError
  | DataIntegrityError
deriving DecidableEq, Repr

/-- Result of balance reconciliation: remaining balance and the
paid-in-full flag. -/
structure BalanceResult where
  remainingBalance : ℚ
  fullyPaid : Bool
deriving DecidableEq, Repr

namespace BalanceCalculator

/-- Modelled from the spec: the Python engine source is not in the
repository snapshot.  Spec 4.3: remainingBalance is
max (principal - totalPaid) 0; fullyPaid when totalPaid meets or
exceeds principal; fails with InvalidAmountError when the principal
is not positive. -/
def reconcile (principal totalPaid : ℚ) : Except EngineError BalanceResult :=
  if principal ≤ 0 then Except.error EngineError.InvalidAmountError
  else Except.ok ⟨if principal - totalPaid ≤ 0 then 0 else principal - totalPaid,
    decide (principal ≤ totalPaid)⟩

end BalanceCalculator

/-- The closed set of seven canonical status labels (spec 4.4). -/
inductive StatusLabel
  | Unpaid
  | OnTime
  | Late
  | Defaulted
  | PartiallyPaid
  | LatePartiallyPaid
  | DefaultedPartiallyPaid
deriving DecidableEq, Repr

namespace StatusResolver

/-- Modelled from the spec: the Python engine source is not in the
repository snapshot.  Spec 4.4: the seven-row decision table in
precedence order; no payment gives Unpaid, and per spec 4.1 an absent
bucket is treated by the caller as unpaid. -/
def resolve (hasAnyPayment fullyPaid : Bool)
    (bucket : Option TimelinessBucket) : StatusLabel :=
  match hasAnyPayment, bucket with
  | false, _ => StatusLabel.Unpaid
  | true, none => StatusLabel.Unpaid
  | true, some TimelinessBucket.OnTime =>
    if fullyPaid then StatusLabel.OnTime else StatusLabel.PartiallyPaid
  | true, some TimelinessBucket.Late =>
    if fullyPaid then StatusLabel.Late else StatusLabel.LatePartiallyPaid
  | true, some TimelinessBucket.Defaulted =>
    if fullyPaid then StatusLabel.Defaulted
    else StatusLabel.DefaultedPartiallyPaid

end StatusResolver

/-- The enriched loan view (derived, never stored): loan fields, its
payments, the remaining balance and the payment status. -/
structure EnrichedLoanView where
  loan : Loan
  payments : List Payment
  remainingBalance : ℚ
  paymentStatus : StatusLabel
deriving DecidableEq

/-- Latest date of a list by calendar day number; none for the empty
list.  Implements the max over a list of dates. -/
def maxDate : List Date → Option Date
  | [] => none
  | d :: ds =>
    match maxDate ds with
    | none => some d
    | some m => some (if m.toDays < d.toDays then d else m)

namespace LoanEnricher

/-- Modelled from the spec: the Python engine source is not in the
repository snapshot.  Spec 4.5 step 4: the reference date is the most
recent payment date among the matched payments, absent when no
matched payment has a date. -/
def referenceDate (matched : List Payment) : Option Date :=
  maxDate (matched.filterMap Payment.payment_date)

/-- Modelled from the spec: the Python engine source is not in the
repository snapshot.  Spec 4.5: filter the payments to the loan,
aggregate, reconcile the balance, classify timeliness against the
most recent payment date, and resolve the final status. -/
def enrich (loan : Loan) (payments : List Payment) :
    Except EngineError EnrichedLoanView :=
  let matched := payments.filter (fun p => p.loan_id == loan.id)
  match BalanceCalculator.reconcile loan.principal
      (PaymentAggregator.totalPaid matched) with
  | Except.error e => Except.error e
  | Except.ok res =>
    let bucket := DateOffsetClassifier.classify loan.due_date
      (referenceDate matched)
    let status := StatusResolver.resolve (!matched.isEmpty) res.fullyPaid bucket
    Except.ok ⟨loan, matched, res.remainingBalance, status⟩

end LoanEnricher

/-- Canonical fixture: loan 1, principal 10000, due 2025-03-01. -/
def loan1 : Loan := ⟨1, "Toms Loan", 10000, 5, ⟨2025, 3, 1⟩⟩

/-- Canonical fixture: the single payment of 10000 on 2025-03-04 for loan 1. -/
def pay1 : Payment := ⟨1, 1, some ⟨2025, 3, 4⟩, 10000⟩

/-- Canonical fixture: loan 2, principal 500000, due 2025-03-01. -/
def loan2 : Loan := ⟨2, "Chris Wailaka", 500000, 3.5, ⟨2025, 3, 1⟩⟩

/-- Canonical fixture: the single payment of 500000 on 2025-03-15 for loan 2. -/
def pay2 : Payment := ⟨2, 2, some ⟨2025, 3, 15⟩, 500000⟩

/-- Canonical fixture: loan 3, principal 30000, due 2025-03-01. -/
def loan3 : Loan := ⟨3, "NP Mobile Money", 30000, 4.5, ⟨2025, 3, 1⟩⟩

/-- Canonical fixture: the single payment of 30000 on 2025-04-05 for loan 3. -/
def pay3 : Payment := ⟨3, 3, some ⟨2025, 4, 5⟩, 30000⟩

/-- Canonical fixture: loan 4, principal 40000, due 2025-03-01, no payments. -/
def loan4 : Loan := ⟨4, "Esthers Autoparts", 40000, 1.5, ⟨2025, 3, 1⟩⟩

/-- Canonical fixture: loan 5, principal 10000, due 2025-03-01. -/
def loan5 : Loan := ⟨5, "Partial Borrower", 10000, 5, ⟨2025, 3, 1⟩⟩

/-- Canonical fixture: the single payment of 4000 on 2025-03-10 for loan 5. -/
def pay5 : Payment := ⟨5, 5, some ⟨2025, 3, 10⟩, 4000⟩

/-- Over-payment sample: principal 10 with a recorded payment of 15. -/
def overLoan : Loan := ⟨9, "Over Payer", 10, 0, ⟨2025, 3, 1⟩⟩

/-- Over-payment sample: the payment of 15 against a principal of 10. -/
def overPay : Payment := ⟨9, 9, some ⟨2025, 3, 2⟩, 15⟩

/-- The enriched view the engine produces for the over-payment sample. -/
def overView : EnrichedLoanView := ⟨overLoan, [overPay], 0, StatusLabel.OnTime⟩

/-- Claim C2: resolve is the seven-row decision table in precedence order;
no payment gives Unpaid whatever the other inputs, and a full payment with
a Late bucket (6 to 30 days after the due date) resolves to Late. -/
theorem C2_resolve_decision_table :
    (∀ (fullyPaid : Bool) (bucket : Option TimelinessBucket),
      StatusResolver.resolve false fullyPaid bucket = StatusLabel.Unpaid) ∧
    StatusResolver.resolve true true (some TimelinessBucket.OnTime) =
      StatusLabel.OnTime ∧
    StatusResolver.resolve true true (some TimelinessBucket.Late) =
      StatusLabel.Late ∧
    StatusResolver.resolve true true (some TimelinessBucket.Defaulted) =
      StatusLabel.Defaulted ∧
    StatusResolver.resolve true false (some TimelinessBucket.OnTime) =
      StatusLabel.PartiallyPaid ∧
    StatusResolver.resolve true false (some TimelinessBucket.Late) =
      StatusLabel.LatePartiallyPaid ∧
    StatusResolver.resolve true false (some TimelinessBucket.Defaulted) =
      StatusLabel.DefaultedPartiallyPaid ∧
    (∀ due ref : Date, 6 ≤ ref.toDays - due.toDays →
      ref.toDays - due.toDays ≤ 30 →
      StatusResolver.resolve true true
        (DateOffsetClassifier.classify due (some ref)) = StatusLabel.Late) := by
  refine ⟨fun fullyPaid bucket => rfl, rfl, rfl, rfl, rfl, rfl, rfl,
    fun due ref h1 h2 => ?_⟩
  have hn : ¬ (ref.toDays - due.toDays ≤ 5) := by omega
  simp only [DateOffsetClassifier.classify, if_neg hn, if_pos h2]
  rfl

/-- Claim C2 witness: a full payment 14 days after the due date resolves
to Late through the classifier and the resolver. -/
theorem C2_resolve_decision_table_witness :
    StatusResolver.resolve true true
      (DateOffsetClassifier.classify ⟨2025, 3, 1⟩ (some ⟨2025, 3, 15⟩)) =
      StatusLabel.Late :=
  C2_resolve_decision_table.2.2.2.2.2.2.2 ⟨2025, 3, 1⟩ ⟨2025, 3, 15⟩
    (by decide) (by decide)

/-- Claim C7: totalPaid is zero on the empty list, invariant under
permutation of the payment list, and counts every occurrence once (a
duplicated entry adds its amount again, never deduplicated). -/
theorem C7_totalPaid_commutative_sum :
    PaymentAggregator.totalPaid [] = 0 ∧
    (∀ l₁ l₂ : List Payment, l₁.Perm l₂ →
      PaymentAggregator.totalPaid l₁ = PaymentAggregator.totalPaid l₂) ∧
    (∀ (p : Payment) (l : List Payment),
      PaymentAggregator.totalPaid (p :: l) =
        p.amount + PaymentAggregator.totalPaid l) := by
  refine ⟨rfl, fun l₁ l₂ h => ?_, fun p l => ?_⟩
  · exact (h.map Payment.amount).sum_eq
  · simp [PaymentAggregator.totalPaid]

/-- Claim C7 witness: a two-element list and its swap sum alike, and a
duplicated payment is counted once per occurrence. -/
theorem C7_totalPaid_commutative_sum_witness :
    PaymentAggregator.totalPaid
        [⟨1, 1, none, 40⟩, ⟨2, 1, none, 60⟩] =
      PaymentAggregator.totalPaid
        [⟨2, 1, none, 60⟩, ⟨1, 1, none, 40⟩] ∧
    PaymentAggregator.totalPaid
        [⟨1, 1, none, 40⟩, ⟨1, 1, none, 40⟩] =
      (⟨1, 1, none, 40⟩ : Payment).amount +
        PaymentAggregator.totalPaid [⟨1, 1, none, 40⟩] :=
  ⟨C7_totalPaid_commutative_sum.2.1 _ _ (List.Perm.swap _ _ _),
   C7_totalPaid_commutative_sum.2.2 ⟨1, 1, none, 40⟩ [⟨1, 1, none, 40⟩]⟩

/-- Claim C8: reconcile fails with InvalidAmountError whenever the
principal is not positive; for a positive principal it succeeds, and the
fullyPaid flag of the result holds exactly when totalPaid meets or
exceeds the principal. -/
theorem C8_reconcile_contract (principal totalPaid : ℚ) :
    (principal ≤ 0 →
      BalanceCalculator.reconcile principal totalPaid =
        Except.error EngineError.InvalidAmountError) ∧
    (0 < principal →
      (BalanceCalculator.reconcile principal totalPaid).map
          BalanceResult.fullyPaid =
        Except.ok (decide (totalPaid ≥ principal))) ∧
    (∀ res, BalanceCalculator.reconcile principal totalPaid = Except.ok res →
      (res.fullyPaid = true ↔ totalPaid ≥ principal)) := by
  refine ⟨fun h => ?_, fun h => ?_, fun res h => ?_⟩
  · simp [BalanceCalculator.reconcile, h]
  · simp [BalanceCalculator.reconcile, not_le.mpr h, Except.map, ge_iff_le]
  · by_cases hp : principal ≤ 0
    · simp [BalanceCalculator.reconcile, hp] at h
    · simp only [BalanceCalculator.reconcile, if_neg hp, Except.ok.injEq] at h
      subst h
      simp [ge_iff_le]

/-- Claim C8 witness: a non-positive principal is rejected; principal 5
with total paid 5 succeeds fully paid (equality counts as fully paid). -/
theorem C8_reconcile_contract_witness :
    BalanceCalculator.reconcile (-1) 3 =
      Except.error EngineError.InvalidAmountError ∧
    (BalanceCalculator.reconcile 5 5).map BalanceResult.fullyPaid =
      Except.ok (decide ((5 : ℚ) ≥ 5)) :=
  ⟨(C8_reconcile_contract (-1) 3).1 (by norm_num),
   (C8_reconcile_contract 5 5).2.1 (by norm_num)⟩

/-- Claim C3: for every loan and payment list, a successful enrichment's
remaining balance is the principal minus the matched payment total,
clamped at zero, and in particular never negative. -/
theorem C3_remaining_balance_clamped (loan : Loan) (payments : List Payment)
    (view : EnrichedLoanView)
    (h : LoanEnricher.enrich loan payments = Except.ok view) :
    view.remainingBalance =
      max (loan.principal -
        ((payments.filter (fun p => p.loan_id == loan.id)).map
          Payment.amount).sum) 0 ∧
    0 ≤ view.remainingBalance := by
  by_cases hp : loan.principal ≤ 0
  · exfalso
    simp [LoanEnricher.enrich, BalanceCalculator.reconcile, hp] at h
  · simp only [LoanEnricher.enrich, BalanceCalculator.reconcile, if_neg hp,
      Except.ok.injEq] at h
    have hb : view.remainingBalance =
        max (loan.principal -
          ((payments.filter (fun p => p.loan_id == loan.id)).map
            Payment.amount).sum) 0 := by
      rw [← h, max_def]
      rfl
    exact ⟨hb, hb ▸ le_max_right _ _⟩

/-- Claim C3 witness: over-payment (principal 10, paid 15) clamps the
remaining balance to zero rather than reporting an error. -/
theorem C3_remaining_balance_clamped_witness :
    overView.remainingBalance =
      max (overLoan.principal -
        (([overPay].filter (fun p => p.loan_id == overLoan.id)).map
          Payment.amount).sum) 0 ∧
    0 ≤ overView.remainingBalance :=
  C3_remaining_balance_clamped overLoan [overPay] overView (by
    simp only [LoanEnricher.enrich, BalanceCalculator.reconcile,
      PaymentAggregator.totalPaid, LoanEnricher.referenceDate, maxDate,
      DateOffsetClassifier.classify, StatusResolver.resolve, List.filter,
      List.filterMap, List.map, List.sum, List.foldr, List.isEmpty,
      overLoan, overPay, overView]
    norm_num [Date.toDays])

/-- maxDate is none exactly on the empty list. -/
theorem maxDate_eq_none_iff (ds : List Date) : maxDate ds = none ↔ ds = [] := by
  cases ds with
  | nil => simp [maxDate]
  | cons a as => cases h : maxDate as <;> simp [maxDate, h]

/-- A date maxDate returns belongs to the list. -/
theorem maxDate_mem : ∀ {ds : List Date} {d : Date},
    maxDate ds = some d → d ∈ ds := by
  intro ds
  induction ds with
  | nil => intro d h; simp [maxDate] at h
  | cons a as ih =>
    intro d h
    simp only [maxDate] at h
    cases hm : maxDate as with
    | none =>
      rw [hm] at h
      simp only [Option.some.injEq] at h
      subst h
      exact List.mem_cons_self a as
    | some m =>
      rw [hm] at h
      simp only [Option.some.injEq] at h
      by_cases hc : m.toDays < a.toDays
      · rw [if_pos hc] at h
        subst h
        exact List.mem_cons_self a as
      · rw [if_neg hc] at h
        subst h
        exact List.mem_cons_of_mem a (ih hm)

/-- Every date of the list is no later than the one maxDate returns. -/
theorem maxDate_is_latest : ∀ {ds : List Date} {d : Date},
    maxDate ds = some d → ∀ e ∈ ds, e.toDays ≤ d.toDays := by
  intro ds
  induction ds with
  | nil => intro d h; simp [maxDate] at h
  | cons a as ih =>
    intro d h e he
    simp only [maxDate] at h
    rcases List.mem_cons.mp he with rfl | he'
    · cases hm : maxDate as with
      | none =>
        rw [hm] at h
        simp only [Option.some.injEq] at h
        subst h
        omega
      | some m =>
        rw [hm] at h
        simp only [Option.some.injEq] at h
        by_cases hc : m.toDays < e.toDays
        · rw [if_pos hc] at h
          subst h
          omega
        · rw [if_neg hc] at h
          subst h
          omega
    · cases hm : maxDate as with
      | none =>
        rw [(maxDate_eq_none_iff as).mp hm] at he'
        exact absurd he' (List.not_mem_nil e)
      | some m =>
        rw [hm] at h
        simp only [Option.some.injEq] at h
        have hem := ih hm e he'
        by_cases hc : m.toDays < a.toDays
        · rw [if_pos hc] at h
          subst h
          omega
        · rw [if_neg hc] at h
          subst h
          omega

/-- Claim C4: the reference date the enricher passes to the classifier is
the most recent payment date over the matched payments, and it is absent
when no matched payment carries a date. -/
theorem C4_reference_date_is_latest (matched : List Payment) :
    (matched.filterMap Payment.payment_date = [] →
      LoanEnricher.referenceDate matched = none) ∧
    (matched.filterMap Payment.payment_date ≠ [] →
      ∃ d, LoanEnricher.referenceDate matched = some d ∧
        d ∈ matched.filterMap Payment.payment_date ∧
        ∀ e ∈ matched.filterMap Payment.payment_date,
          e.toDays ≤ d.toDays) := by
  constructor
  · intro h
    simp [LoanEnricher.referenceDate, h, maxDate]
  · intro h
    cases hm : maxDate (matched.filterMap Payment.payment_date) with
    | none => exact absurd ((maxDate_eq_none_iff _).mp hm) h
    | some d =>
      exact ⟨d, by simp [LoanEnricher.referenceDate, hm], maxDate_mem hm,
        maxDate_is_latest hm⟩

/-- Claim C4 witness: with two dated payments the reference date is the
later of the two dates. -/
theorem C4_reference_date_is_latest_witness :
    ∃ d, LoanEnricher.referenceDate
        [⟨1, 1, some ⟨2025, 3, 4⟩, 10⟩, ⟨2, 1, some ⟨2025, 3, 10⟩, 10⟩] =
        some d ∧
      d ∈ ([⟨1, 1, some ⟨2025, 3, 4⟩, 10⟩,
            ⟨2, 1, some ⟨2025, 3, 10⟩, 10⟩] : List Payment).filterMap
          Payment.payment_date ∧
      ∀ e ∈ ([⟨1, 1, some ⟨2025, 3, 4⟩, 10⟩,
              ⟨2, 1, some ⟨2025, 3, 10⟩, 10⟩] : List Payment).filterMap
          Payment.payment_date, e.toDays ≤ d.toDays :=
  (C4_reference_date_is_latest
    [⟨1, 1, some ⟨2025, 3, 4⟩, 10⟩, ⟨2, 1, some ⟨2025, 3, 10⟩, 10⟩]).2
    (by simp)

/-- Claim C5: the payment status of every materialized enriched view is a
member of the closed seven-label set. -/
theorem C5_status_in_seven_labels (loan : Loan) (payments : List Payment)
    (view : EnrichedLoanView)
    (h : LoanEnricher.enrich loan payments = Except.ok view) :
    view.paymentStatus ∈ [StatusLabel.Unpaid, StatusLabel.OnTime,
      StatusLabel.Late, StatusLabel.Defaulted, StatusLabel.PartiallyPaid,
      StatusLabel.LatePartiallyPaid, StatusLabel.DefaultedPartiallyPaid] := by
  cases view.paymentStatus <;> simp

/-- Claim C5 witness: the no-payment fixture materializes with a status in
the seven-label set. -/
theorem C5_status_in_seven_labels_witness :
    (⟨loan4, [], 40000, StatusLabel.Unpaid⟩ :
        EnrichedLoanView).paymentStatus ∈ [StatusLabel.Unpaid,
      StatusLabel.OnTime, StatusLabel.Late, StatusLabel.Defaulted,
      StatusLabel.PartiallyPaid, StatusLabel.LatePartiallyPaid,
      StatusLabel.DefaultedPartiallyPaid] :=
  C5_status_in_seven_labels loan4 [] _ (by
    simp only [LoanEnricher.enrich, BalanceCalculator.reconcile,
      PaymentAggregator.totalPaid, LoanEnricher.referenceDate, maxDate,
      DateOffsetClassifier.classify, StatusResolver.resolve, List.filter,
      List.filterMap, List.map, List.sum, List.foldr, List.isEmpty, loan4]
    norm_num)

/-- Claim C6: the five canonical fixtures enrich to the expected status and
remaining balance: full payment 3 days late is On Time with balance 0,
full payment 14 days late is Late, full payment 35 days late is
Defaulted, no payment is Unpaid with the full principal remaining, and a
partial payment 9 days late is Late Partially Paid with balance 6000. -/
theorem C6_end_to_end_fixtures :
    LoanEnricher.enrich loan1 [pay1] =
      Except.ok ⟨loan1, [pay1], 0, StatusLabel.OnTime⟩ ∧
    LoanEnricher.enrich loan2 [pay2] =
      Except.ok ⟨loan2, [pay2], 0, StatusLabel.Late⟩ ∧
    LoanEnricher.enrich loan3 [pay3] =
      Except.ok ⟨loan3, [pay3], 0, StatusLabel.Defaulted⟩ ∧
    LoanEnricher.enrich loan4 [] =
      Except.ok ⟨loan4, [], 40000, StatusLabel.Unpaid⟩ ∧
    LoanEnricher.enrich loan5 [pay5] =
      Except.ok ⟨loan5, [pay5], 6000, StatusLabel.LatePartiallyPaid⟩ := by
  refine ⟨?_, ?_, ?_, ?_, ?_⟩ <;>
  · simp only [LoanEnricher.enrich, BalanceCalculator.reconcile,
      PaymentAggregator.totalPaid, LoanEnricher.referenceDate, maxDate,
      DateOffsetClassifier.classify, StatusResolver.resolve, List.filter,
      List.filterMap, List.map, List.sum, List.foldr, List.isEmpty,
      loan1, pay1, loan2, pay2, loan3, pay3, loan4, loan5, pay5]
    norm_num [Date.toDays]

namespace AddPayment

/-- A JavaScript number as the submit handler sees it: none models NaN
(the result of parseFloat on a non-numeric string), some a numeric
value. -/
abbrev JsNumber := Option ℚ

/-- JavaScript comparison x <= b: false when x is NaN. -/
def jsLe (x : JsNumber) (b : ℚ) : Bool :=
  match x with
  | none => false
  | some v => v ≤ b

/-- JavaScript comparison x > b: false when x is NaN. -/
def jsGt (x : JsNumber) (b : ℚ) : Bool :=
  match x with
  | none => false
  | some v => b < v

/-- The loan fields the CheckLoanStatus query returns to the form. -/
structure LoanInfo where
  principal : ℚ
  remaining_balance : ℚ
deriving DecidableEq

/-- Outcome of one submit: an error message is set and the handler
returns, or the make-payment mutation is issued with the parsed amount. -/
inductive SubmitResult
  | errorMsg (msg : String)
  | mutate (amount : JsNumber)
deriving DecidableEq

/-- Guard logic of handleSubmit in AddPayment.tsx (lines 50 to 75):
empty fields or parseFloat(amount) <= 0 set an error; then a query
error, a missing loan, a remaining balance <= 0, and an amount above
the remaining balance each set an error; otherwise the mutation is
issued with parseFloat(amount).  NaN compares false on both amount
guards. -/
def handleSubmit (loanIdNonempty amountNonempty : Bool)
    (amountParsed : JsNumber) (queryError : Bool)
    (loan : Option LoanInfo) : SubmitResult :=
  if !loanIdNonempty || !amountNonempty || jsLe amountParsed 0 then
    SubmitResult.errorMsg
      ("Please fill in all fields and ensure the amount is greater than zero.")
  else if queryError then
    SubmitResult.errorMsg ("Error fetching loan status.")
  else
    match loan with
    | none => SubmitResult.errorMsg ("Loan not found.")
    | some l =>
      if l.remaining_balance ≤ 0 then
        SubmitResult.errorMsg ("This loan has already been fully paid.")
      else if jsGt amountParsed l.remaining_balance then
        SubmitResult.errorMsg ("Payment exceeds the remaining amount")
      else
        SubmitResult.mutate amountParsed

/-- Whether a submit outcome issues the make-payment mutation. -/
def SubmitResult.issuesMutation : SubmitResult → Bool
  | SubmitResult.mutate _ => true
  | SubmitResult.errorMsg _ => false

end AddPayment

/-- Claim C9 counterexample: a non-empty amount that fails to parse
(parseFloat gives NaN) slips past both amount guards, and the mutation
is issued with a NaN amount against a loan with remaining balance 100:
the claim that no mutation is issued when the amount fails to parse as
a number greater than zero is false on the code. -/
theorem C9_counterexample_nan_amount :
    AddPayment.handleSubmit true true none false (some ⟨100, 100⟩) =
      AddPayment.SubmitResult.mutate none := by
  rfl

/-- Claim C9 as amended: the mutation is never issued when the amount
parses to a value not greater than zero, when the fetched loan's
remaining balance is not positive, or when the parsed amount exceeds
the remaining balance; a NaN amount, however, is not rejected. -/
theorem C9_no_mutation_on_rejected_input (loanIdNonempty amountNonempty : Bool)
    (amountParsed : AddPayment.JsNumber) (queryError : Bool)
    (loan : Option AddPayment.LoanInfo) :
    (∀ a : ℚ, amountParsed = some a → a ≤ 0 →
      (AddPayment.handleSubmit loanIdNonempty amountNonempty amountParsed
        queryError loan).issuesMutation = false) ∧
    (∀ l : AddPayment.LoanInfo, loan = some l → l.remaining_balance ≤ 0 →
      (AddPayment.handleSubmit loanIdNonempty amountNonempty amountParsed
        queryError loan).issuesMutation = false) ∧
    (∀ (a : ℚ) (l : AddPayment.LoanInfo), amountParsed = some a →
      loan = some l → l.remaining_balance < a →
      (AddPayment.handleSubmit loanIdNonempty amountNonempty amountParsed
        queryError loan).issuesMutation = false) := by
  refine ⟨fun a ha hle => ?_, fun l hl hrb => ?_, fun a l ha hl hlt => ?_⟩
  · subst ha
    simp [AddPayment.handleSubmit, AddPayment.jsLe, hle,
      AddPayment.SubmitResult.issuesMutation]
  · subst hl
    by_cases h1 : (!loanIdNonempty || !amountNonempty ||
        AddPayment.jsLe amountParsed 0) = true
    · simp [AddPayment.handleSubmit, h1, AddPayment.SubmitResult.issuesMutation]
    · by_cases h2 : queryError
      · simp [AddPayment.handleSubmit, h1, h2,
          AddPayment.SubmitResult.issuesMutation]
      · simp [AddPayment.handleSubmit, h1, h2, hrb,
          AddPayment.SubmitResult.issuesMutation]
  · subst ha
    subst hl
    by_cases h1 : (!loanIdNonempty || !amountNonempty ||
        AddPayment.jsLe (some a) 0) = true
    · simp [AddPayment.handleSubmit, h1, AddPayment.SubmitResult.issuesMutation]
    · by_cases h2 : queryError
      · simp [AddPayment.handleSubmit, h1, h2,
          AddPayment.SubmitResult.issuesMutation]
      · by_cases h3 : l.remaining_balance ≤ 0
        · simp [AddPayment.handleSubmit, h1, h2, h3,
            AddPayment.SubmitResult.issuesMutation]
        · have hgt : AddPayment.jsGt (some a) l.remaining_balance = true := by
            simp [AddPayment.jsGt, hlt]
          simp [AddPayment.handleSubmit, h1, h2, h3, hgt,
            AddPayment.SubmitResult.issuesMutation]

/-- Claim C9 witness: an entered amount of minus one, a fully paid loan,
and an amount of 50 against a remaining balance of 20 each produce an
error and no mutation. -/
theorem C9_no_mutation_on_rejected_input_witness :
    (AddPayment.handleSubmit true true (some (-1)) false
      (some ⟨100, 100⟩)).issuesMutation = false ∧
    (AddPayment.handleSubmit true true (some 5) false
      (some ⟨100, 0⟩)).issuesMutation = false ∧
    (AddPayment.handleSubmit true true (some 50) false
      (some ⟨100, 20⟩)).issuesMutation = false :=
  ⟨(C9_no_mutation_on_rejected_input true true (some (-1)) false
      (some ⟨100, 100⟩)).1 (-1) rfl (by norm_num),
   (C9_no_mutation_on_rejected_input true true (some 5) false
      (some ⟨100, 0⟩)).2.1 ⟨100, 0⟩ rfl (by norm_num),
   (C9_no_mutation_on_rejected_input true true (some 50) false
      (some ⟨100, 20⟩)).2.2 50 ⟨100, 20⟩ rfl rfl (by norm_num)⟩

namespace LoanCalculator

/-- The recompute effect of LoanCalculator.tsx (lines 11 to 24): parse
the three inputs (none models NaN); when all three parse positive, the
interest is principal times rate times months over 100 and the total is
principal plus interest; otherwise both outputs are reset to 0. -/
def outputs (principal rate months : Option ℚ) : ℚ × ℚ :=
  match principal, rate, months with
  | some p, some r, some m =>
    if 0 < p ∧ 0 < r ∧ 0 < m then
      (p * r * m / 100, p + p * r * m / 100)
    else (0, 0)
  | _, _, _ => (0, 0)

/-- An input parses as a positive number: it is not NaN and is
greater than zero. -/
def parsesPositive (x : Option ℚ) : Prop := ∃ v, x = some v ∧ 0 < v

end LoanCalculator

/-- Claim C10: when the three inputs parse positive, the displayed
interest is principal times rate times months over 100 and the total
payment is principal plus that interest; when any input fails to parse
positive, both displayed values are 0. -/
theorem C10_calculator_outputs (p r m : ℚ) :
    (0 < p → 0 < r → 0 < m →
      LoanCalculator.outputs (some p) (some r) (some m) =
        (p * r * m / 100, p + p * r * m / 100)) ∧
    (∀ po ro mo : Option ℚ,
      ¬ (LoanCalculator.parsesPositive po ∧ LoanCalculator.parsesPositive ro ∧
          LoanCalculator.parsesPositive mo) →
      LoanCalculator.outputs po ro mo = (0, 0)) := by
  constructor
  · intro hp hr hm
    simp [LoanCalculator.outputs, hp, hr, hm]
  · intro po ro mo hnot
    match po, ro, mo with
    | none, _, _ => rfl
    | some pv, none, _ => rfl
    | some pv, some rv, none => rfl
    | some pv, some rv, some mv =>
      simp only [LoanCalculator.outputs]
      rw [if_neg]
      intro ⟨hp, hr, hm⟩
      exact hnot ⟨⟨pv, rfl, hp⟩, ⟨rv, rfl, hr⟩, ⟨mv, rfl, hm⟩⟩

/-- Claim C10 witness: principal 10, rate 5, months 2 display interest 1
and total 11; a non-positive principal resets both to 0. -/
theorem C10_calculator_outputs_witness :
    LoanCalculator.outputs (some 10) (some 5) (some 2) =
      ((10 : ℚ) * 5 * 2 / 100, (10 : ℚ) + 10 * 5 * 2 / 100) ∧
    LoanCalculator.outputs (some 0) (some 5) (some 2) = (0, 0) :=
  ⟨(C10_calculator_outputs 10 5 2).1 (by norm_num) (by norm_num) (by norm_num),
   (C10_calculator_outputs 10 5 2).2 (some 0) (some 5) (some 2) (by
     rintro ⟨⟨v, hv, hpos⟩, -, -⟩
     rw [Option.some.injEq] at hv
     subst hv
     exact absurd hpos (by norm_num))⟩

end LoanService
